import Mathlib

/-!
Verification of the auto-bench scheduling and execution engine.

This file is a shallow embedding, in Lean 4, of the parts of the
auto-bench source (package `autobench`) that the checked claims are
about.  Each definition is translated directly from the named Python
function; machine integers are modelled as `Int`/`Nat` (Python integers
are unbounded, so no wrap-around is introduced), catalog prices are
modelled in fixed-point units as `Int` (the claims use prices only
through order comparisons, which the scaling preserves), fallible code
returns `Except`/`Option`, and the effectful parts of the scheduler are
modelled as pure functions of an explicit environment that records the
outcome of every external call, returning the trace of external actions
they perform.
-/

/-! ## Configuration model (`autobench/config.py`) -/

/-- Translation of the dataclass `TGIConfig` in `autobench/config.py`.
`num_shard` defaults to `1` and `quantize` to `None` at the call sites;
`estimated_memory_in_gigabytes` is omitted because no claim and no
embedded definition reads it. -/
structure TGIConfig where
  model_id : String
  max_batch_prefill_tokens : Int
  max_input_tokens : Int
  max_total_tokens : Int
  num_shard : Int := 1
  quantize : Option String := none
deriving Repr, DecidableEq

/-- Translation of `TGIConfig.__post_init__` (`autobench/config.py`,
lines 23-32): the derived environment-variable mapping, as an
association list in the insertion order of the source.  The guard
`if self.quantize:` is Python truthiness: it adds the `QUANTIZE` key
only when `quantize` is a non-`None`, non-empty string. -/
def TGIConfig.env_vars (c : TGIConfig) : List (String × String) :=
  [("MAX_INPUT_TOKENS", toString c.max_input_tokens),
   ("MAX_TOTAL_TOKENS", toString c.max_total_tokens),
   ("MAX_BATCH_PREFILL_TOKENS", toString c.max_batch_prefill_tokens),
   ("NUM_SHARD", toString c.num_shard),
   ("MODEL_ID", "/repository")] ++
  (match c.quantize with
   | some q => if q = "" then [] else [("QUANTIZE", q)]
   | none => [])

/-- Translation of a row of the compute-option catalog as the planner and
the deployment code consume it (`ComputeInstanceConfig` in
`autobench/config.py` restricted to the fields the embedded code reads;
`price_per_hour` is modelled in fixed-point units, which preserves every
order comparison the code performs). -/
structure ComputeInstanceConfig where
  id : String
  vendor : String
  region : String
  instance_type : String
  instance_size : String
  num_gpus : Int
  price_per_hour : Int
deriving Repr, DecidableEq

/-! ## Deployment handle (`autobench/deployment.py`) -/

/-- Translation of the state of a `Deployment` object
(`autobench/deployment.py`) as the scheduler observes it.
`endpoint = some st` models the presence of the `endpoint` attribute,
with `st` the status that `self.endpoint.fetch()` currently reports;
`endpoint = none` models a deployment on which no endpoint has ever been
created or adopted (the attribute is absent).  `exists_` models the
`_exists` flag. -/
structure Deployment where
  deployment_id : String
  exists_ : Bool
  endpoint : Option String
  instance_config : ComputeInstanceConfig
  tgi_config : TGIConfig
  teardown_on_exit : Bool
deriving Repr, DecidableEq

/-- Translation of `Deployment.endpoint_status`
(`autobench/deployment.py`, lines 224-236): when the `endpoint`
attribute is present, return the fetched status; otherwise log an error
and return `None` (no exception is raised). -/
def Deployment.endpoint_status (d : Deployment) : Option String :=
  match d.endpoint with
  | some st => some st
  | none => none

/-! ## Scheduler admission (`autobench/scheduler.py`) -/

/-- Translation of one entry of the per-vendor `quotas` list in the quota
document fetched by `Scheduler.fetch_quotas`. -/
structure QuotaEntry where
  instanceType : String
  maxAccelerators : Int
  usedAccelerators : Int
deriving Repr, DecidableEq

/-- Translation of one entry of the `vendors` list of the quota
document. -/
structure VendorQuotas where
  name : String
  quotas : List QuotaEntry
deriving Repr, DecidableEq

/-- Translation of the quota document consumed by
`Scheduler._can_deploy`. -/
structure Quota where
  vendors : List VendorQuotas
deriving Repr, DecidableEq

/-- Translation of `Scheduler._is_running` (`autobench/scheduler.py`,
lines 158-169): `deployment.endpoint_status() == "running"`. -/
def scheduler_is_running (d : Deployment) : Bool :=
  d.endpoint_status == some "running"

/-- Translation of `Scheduler._endpoint_exists`
(`autobench/scheduler.py`, lines 145-156). -/
def scheduler_endpoint_exists (d : Deployment) : Bool :=
  d.exists_

/-- The quota entry that the nested loop of `Scheduler._can_deploy`
(`autobench/scheduler.py`, lines 189-201) reaches: the first entry with
`instanceType == instance_type` inside the first vendor whose `name`
matches and whose `quotas` list holds such an entry; vendors whose name
matches but whose list holds no such entry fall through to the next
vendor, exactly as the Python `for` loops do. -/
def find_quota : List VendorQuotas → String → String → Option QuotaEntry
  | [], _, _ => none
  | v :: rest, vendor, instance_type =>
    if v.name = vendor then
      match v.quotas.find? (fun e => e.instanceType == instance_type) with
      | some e => some e
      | none => find_quota rest vendor instance_type
    else find_quota rest vendor instance_type

/-- Translation of `Scheduler._can_deploy` (`autobench/scheduler.py`,
lines 171-202): look the `(vendor, instance_type)` pair up in the quota
document; on a hit return `maxAccelerators - usedAccelerators >=
num_gpus`; with no matching entry return `False`. -/
def can_deploy (q : Quota) (d : Deployment) : Bool :=
  match find_quota q.vendors d.instance_config.vendor d.instance_config.instance_type with
  | some e => decide (d.instance_config.num_gpus ≤ e.maxAccelerators - e.usedAccelerators)
  | none => false

/-- Translation of the admission decision taken for one pending scenario
group by `Scheduler.process_tasks` (`autobench/scheduler.py`, lines
107-133): the group is handed to `deploy_and_benchmark` when the
endpoint exists and is running, or else when `_can_deploy` holds;
otherwise it is put back on the pending queue. -/
def scheduler_admits (q : Quota) (d : Deployment) : Bool :=
  (scheduler_endpoint_exists d && scheduler_is_running d) || can_deploy q d

/-! ## Scenario results (imported, but not defined, by `src`)

`autobench/scenario.py` imports `ScenarioResult` and
`ScenarioGroupResult` from `autobench/benchmark.py`, and
`autobench/benchmark.py` imports both back from `autobench/scenario.py`;
neither file (nor any other file under `src/`) defines them, so the two
dataclasses are modelled from the spec (§3). -/

/-- Stand-in for a parsed JSON value as returned by the external
`json.loads`; the embedded code never inspects it, only passes it
around, so its representation is irrelevant to every claim. -/
structure JsonValue where
  raw : String
deriving Repr, DecidableEq

/-- Modelled from the spec: the `ScenarioResult` dataclass is missing
from `src/` (circular import between `scenario.py` and `benchmark.py`;
neither defines it).  Spec §3 gives its fields
(`scenario_id`, `deployment_id`, `executor_type`, `executor_variables`,
the rendered script text, `metrics`, and a status of shape
`(status : success|failed, error : text|null)`); `k6_script` is the
field name the `src/` call sites use for the rendered script text, kept
as an `Option` because `BenchmarkResult.save` tests it for nullness. -/
structure ScenarioResult where
  scenario_id : String
  deployment_id : String
  executor_type : String
  executor_variables : List (String × String)
  k6_script : Option String
  metrics : Option JsonValue
  status : String
  error : Option String
deriving Repr, DecidableEq

/-- Modelled from the spec: the constructor call
`ScenarioResult(scenario_id=…, …, k6_script=…, metrics=…)` in
`Scenario._run` (`autobench/scenario.py`, lines 93-100) passes no
status; per spec §4.6 the status of a result built at that point (zero
exit code) is `success` with parsed metrics, or `failed` with
`error = "Failed to parse output as JSON"` and null metrics, so the
modelled dataclass derives the status from `metrics`. -/
def mkScenarioResult (scenario_id deployment_id executor_type : String)
    (executor_variables : List (String × String)) (k6_script : String)
    (metrics : Option JsonValue) : ScenarioResult :=
  { scenario_id := scenario_id
    deployment_id := deployment_id
    executor_type := executor_type
    executor_variables := executor_variables
    k6_script := some k6_script
    metrics := metrics
    status := if metrics.isSome then "success" else "failed"
    error := if metrics.isSome then none else some "Failed to parse output as JSON" }

/-- Modelled from the spec: the `GroupStatus` shape
`(status, error, oom)` that `Scheduler.deploy_and_benchmark` builds as
`scenerio_group_status` and stores into `deployment_status`. -/
structure GroupStatus where
  status : String
  error : Option String
  oom : Bool
deriving Repr, DecidableEq

/-- Translation of the `deployment_details` snapshot built by
`Scheduler.deploy_and_benchmark` (`autobench/scheduler.py`, lines
302-308): the runtime config, the instance config, and
`endpoint_details` (always `None` in the synthesized branch). -/
structure DeploymentDetails where
  tgi_config : TGIConfig
  instance_config : ComputeInstanceConfig
  endpoint_details : Option Unit
deriving Repr, DecidableEq

/-- Modelled from the spec: the `ScenarioGroupResult` dataclass is
missing from `src/` for the same reason as `ScenarioResult`.  Its
fields follow spec §3 and the keyword arguments of the `src/` call
sites (`deployment_details` and `deployment_status` are optional).
`scenario_results` holds `Option ScenarioResult` because
`ScenarioGroup._run` appends the value of `Scenario._run`, which is
`None` when the subprocess exits non-zero. -/
structure ScenarioGroupResult where
  deployment_id : String
  scenario_results : List (Option ScenarioResult)
  deployment_details : Option DeploymentDetails := none
  deployment_status : Option GroupStatus := none
deriving Repr, DecidableEq

/-! ## Scenario executor (`autobench/scenario.py`) -/

/-- Translation of the data that one call of `Scenario._run` reads from
its surroundings: the identifiers and executor data of the `Scenario`
object, the status that `self.deployment.endpoint.status` reports, the
exit code and captured output of the k6 subprocess, and the rendered
script text that `_get_scenario_script` reads back from disk. -/
structure ScenarioEnv where
  scenario_id : String
  deployment_id : String
  executor_type : String
  executor_variables : List (String × String)
  status_seen : String
  returncode : Int
  stdout : String
  stderr : String
  rendered_script : String
deriving Repr, DecidableEq

/-- Translation of `Scenario._run` (`autobench/scenario.py`, lines
52-100), with the external `json.loads` passed in as `parse` (returning
`none` where the library raises `JSONDecodeError`).  An `Except.error`
is the exception raised for a non-running endpoint (lines 57-60); on a
non-zero exit code the function logs and returns `None` (lines 76-81);
on a zero exit code it parses the trimmed stdout and returns a
`ScenarioResult` whose `metrics` is the parse outcome (lines 87-100). -/
def scenario_run (parse : String → Option JsonValue) (e : ScenarioEnv) :
    Except String (Option ScenarioResult) :=
  if e.status_seen ≠ "running" then
    Except.error ("Deployment " ++ e.deployment_id ++ " is not running, will not run benchmark.")
  else if e.returncode ≠ 0 then
    Except.ok none
  else
    Except.ok (some (mkScenarioResult e.scenario_id e.deployment_id e.executor_type
      e.executor_variables e.rendered_script (parse e.stdout.trim)))

/-- The value `ScenarioGroup._run` appends for one scenario when the
endpoint is running: `None` on a non-zero exit code, otherwise the
`ScenarioResult` built by `Scenario._run`. -/
def scenario_outcome (parse : String → Option JsonValue) (e : ScenarioEnv) :
    Option ScenarioResult :=
  if e.returncode ≠ 0 then none
  else some (mkScenarioResult e.scenario_id e.deployment_id e.executor_type
    e.executor_variables e.rendered_script (parse e.stdout.trim))

/-- The loop body of `ScenarioGroup._run` (`autobench/scenario.py`,
lines 162-166): run each scenario in order and append its value to the
accumulated `scenario_results`; the loop has no exception handler, so an
exception raised by `Scenario._run` propagates and ends the loop. -/
def scenario_group_go (parse : String → Option JsonValue) :
    List ScenarioEnv → List (Option ScenarioResult) →
    Except String (List (Option ScenarioResult))
  | [], acc => Except.ok acc
  | e :: rest, acc =>
    match scenario_run parse e with
    | Except.error m => Except.error m
    | Except.ok r => scenario_group_go parse rest (acc ++ [r])

/-- Translation of `ScenarioGroup._run` (`autobench/scenario.py`, lines
162-171): run the scenarios in order, then return a
`ScenarioGroupResult` with the accumulated per-scenario values. -/
def scenario_group_run (parse : String → Option JsonValue)
    (deployment_id : String) (es : List ScenarioEnv) :
    Except String ScenarioGroupResult :=
  match scenario_group_go parse es [] with
  | Except.error m => Except.error m
  | Except.ok rs => Except.ok { deployment_id := deployment_id, scenario_results := rs }

/-! ## Per-group scheduler task (`autobench/scheduler.py`) -/

/-- Whether `needle` occurs as a contiguous run inside `hay`
(character-list level helper for the Python substring test). -/
def starts_with_chars : List Char → List Char → Bool
  | [], _ => true
  | _ :: _, [] => false
  | a :: as, b :: bs => a = b && starts_with_chars as bs

/-- Character-list substring search: does the first list occur
contiguously inside the second? -/
def chars_contain : List Char → List Char → Bool
  | hay, needle =>
    match hay with
    | [] => needle.isEmpty
    | _ :: t => starts_with_chars needle hay || chars_contain t needle

/-- Translation of the Python substring test `needle in hay` for
strings. -/
def str_contains (hay needle : String) : Bool :=
  chars_contain hay.toList needle.toList

/-- The value `get_endpoint_logs` (`autobench/scheduler.py`, lines
346-377) returns: the response body as plain text, or the parsed JSON
value when the response declares a JSON content type (for a JSON object
the Python membership test `x in logs` checks the top-level keys). -/
inductive Logs where
  | text (s : String)
  | jsonObject (keys : List String)
deriving Repr, DecidableEq

/-- Translation of the Python membership test
`"OutOfMemoryError" in logs` (`autobench/scheduler.py`, line 253):
substring search on a string, key membership on a parsed JSON object. -/
def logs_contain (needle : String) : Logs → Bool
  | Logs.text s => str_contains s needle
  | Logs.jsonObject keys => keys.contains needle

/-- Outcome of one call into the endpoint control plane from
the `try` block of `deploy_and_benchmark`: normal return, an
`InferenceEndpointError` with message, or any other exception with
message. -/
inductive StepOutcome where
  | ok
  | endpointErr (msg : String)
  | otherErr (msg : String)
deriving Repr, DecidableEq

/-- One externally visible action performed by
`Scheduler.deploy_and_benchmark`, in the order performed. -/
inductive SchedAction where
  | createEndpoint
  | resumeEndpoint
  | sleepSec (n : Nat)
  | fetchLogs
  | deleteEndpoint
  | updateQuota
deriving Repr, DecidableEq

/-- Translation of the error-string concatenation for a failed delete
(`autobench/scheduler.py`, lines 288-292). -/
def append_delete_error : Option String → String → Option String
  | some e, m => some (e ++ "; Error deleting: " ++ m)
  | none, m => some ("Error deleting: " ++ m)

/-- The environment of one `Scheduler.deploy_and_benchmark` call: the
deployment state at admission and the outcome of every external call
the task may perform (endpoint creation, resume, the scenario-group
run, the log fetch, the status fetch in the `finally` block, and the
endpoint deletion). -/
structure SchedEnv where
  deployment : Deployment
  deploy_outcome : StepOutcome
  resume_outcome : StepOutcome
  run_outcome : Except String ScenarioGroupResult
  logs_result : Except String Logs
  fetched_status : String
  delete_outcome : Except String Unit

/-- Translation of `Scheduler.deploy_and_benchmark`
(`autobench/scheduler.py`, lines 204-314) as a pure function of its
environment, returning the `ScenarioGroupResult` appended to
`self.results` together with the trace of external actions performed.
The `try` block creates the endpoint when `_exists` is false, else
resumes it when it is not running; on success it runs the scenario
group and sets the status to `success`.  An `InferenceEndpointError`
triggers the log branch: sleep 60 s, fetch the logs (a fetch error is
swallowed, leaving `oom` false), set `oom` by the membership test and
record the message.  Any other exception only records its message.
The `finally` block deletes the endpoint (after a 5 s sleep, recording
a delete error) only when the endpoint now reports `running` and
`teardown_on_exit` holds; when the run produced no result it
synthesizes one with empty `scenario_results` and a snapshot with
`endpoint_details = None`; it attaches the status and refreshes the
quota. -/
def deploy_and_benchmark (env : SchedEnv) : ScenarioGroupResult × List SchedAction :=
  let d := env.deployment
  -- bring the endpoint up (lines 217-232); `attached` tracks whether the
  -- `endpoint` attribute is present afterwards (a successful create
  -- attaches it, lines 206-209 of deployment.py)
  let bring : StepOutcome × Bool × List SchedAction :=
    if !scheduler_endpoint_exists d then
      (env.deploy_outcome,
       (match env.deploy_outcome with | StepOutcome.ok => true | _ => false) || d.endpoint.isSome,
       [SchedAction.createEndpoint])
    else if !scheduler_is_running d then
      (env.resume_outcome, d.endpoint.isSome, [SchedAction.resumeEndpoint])
    else
      (StepOutcome.ok, d.endpoint.isSome, [])
  let step1 : GroupStatus × Option ScenarioGroupResult × List SchedAction :=
    match bring.1 with
    | StepOutcome.ok =>
      match env.run_outcome with
      | Except.ok r => ({ status := "success", error := none, oom := false }, some r, [])
      | Except.error m => ({ status := "failed", error := some m, oom := false }, none, [])
    | StepOutcome.endpointErr m =>
      let oomFlag := match env.logs_result with
        | Except.ok logs => logs_contain "OutOfMemoryError" logs
        | Except.error _ => false
      ({ status := "failed", error := some m, oom := oomFlag }, none,
       [SchedAction.sleepSec 60, SchedAction.fetchLogs])
    | StepOutcome.otherErr m =>
      ({ status := "failed", error := some m, oom := false }, none, [])
  -- the `finally` block (lines 268-314)
  let attached := bring.2.1
  let endpoint_after : Option String := if attached then some env.fetched_status else none
  let running_now := scheduler_is_running { d with endpoint := endpoint_after }
  let step2 : GroupStatus × List SchedAction :=
    if running_now then
      if d.teardown_on_exit then
        match env.delete_outcome with
        | Except.ok _ => (step1.1, [SchedAction.sleepSec 5, SchedAction.deleteEndpoint])
        | Except.error m =>
          ({ step1.1 with error := append_delete_error step1.1.error m },
           [SchedAction.sleepSec 5, SchedAction.deleteEndpoint])
      else (step1.1, [])
    else (step1.1, [])
  let base : ScenarioGroupResult :=
    match step1.2.1 with
    | some r => r
    | none =>
      { deployment_id := d.deployment_id
        scenario_results := []
        deployment_details := some
          { tgi_config := d.tgi_config
            instance_config := d.instance_config
            endpoint_details := none } }
  ({ base with deployment_status := some step2.1 },
   bring.2.2 ++ step1.2.2 ++ step2.2 ++ [SchedAction.updateQuota])

/-! ## Instance planner (`autobench/compute_manager.py`) -/

/-- The sort key that `ComputeManager.get_instance_details` maps the
`vendor` column through: `0` for the preferred vendor, `1` otherwise
(`autobench/compute_manager.py`, line 179). -/
def vendor_key (preferred_vendor : String) (r : ComputeInstanceConfig) : Nat :=
  if r.vendor = preferred_vendor then 0 else 1

/-- Translation of the Python method `str.startswith` (kept at the character
level so that concrete instances evaluate inside the kernel). -/
def str_starts_with (s pre : String) : Bool :=
  starts_with_chars pre.toList s.toList

/-- The sort key that `ComputeManager.get_instance_details` maps the
`region` column through: `0` when the region starts with the preferred
region string, `1` otherwise (`autobench/compute_manager.py`,
line 181). -/
def region_key (preferred_region : String) (r : ComputeInstanceConfig) : Nat :=
  if str_starts_with r.region preferred_region then 0 else 1

/-- Lexicographic character-list comparison (kept structural so that
concrete instances evaluate inside the kernel). -/
def chars_lt : List Char → List Char → Bool
  | [], [] => false
  | [], _ :: _ => true
  | _ :: _, [] => false
  | a :: as, b :: bs =>
    if a < b then true else if b < a then false else chars_lt as bs

/-- String comparison as pandas sorts object columns: strict
lexicographic order on the characters; it agrees with the ambient
string order (proved below). -/
def str_lt (a b : String) : Bool :=
  chars_lt a.toList b.toList

/-- The lexicographic row comparison realised by
`df.sort_values(by=["num_gpus", "instance_type", "vendor", "region",
"price_per_hour"], key=…)` in `ComputeManager.get_instance_details`
(`autobench/compute_manager.py`, lines 166-185), with the vendor and
region columns mapped through their preference keys. -/
def row_le (pv pr : String) (a b : ComputeInstanceConfig) : Bool :=
  if a.num_gpus < b.num_gpus then true
  else if b.num_gpus < a.num_gpus then false
  else if str_lt a.instance_type b.instance_type then true
  else if str_lt b.instance_type a.instance_type then false
  else if vendor_key pv a < vendor_key pv b then true
  else if vendor_key pv b < vendor_key pv a then false
  else if region_key pr a < region_key pr b then true
  else if region_key pr b < region_key pr a then false
  else a.price_per_hour ≤ b.price_per_hour

/-- The full sort key of a row as a lexicographically ordered tuple;
`row_le` decides exactly the order of these keys (proved below). -/
def sort_key (pv pr : String) (r : ComputeInstanceConfig) :
    Lex (Int × Lex (String × Lex (Nat × Lex (Nat × Int)))) :=
  toLex (r.num_gpus, toLex (r.instance_type,
    toLex (vendor_key pv r, toLex (region_key pr r, r.price_per_hour))))

/-- The `(num_gpus, instance_type)` pair that
`df_sorted.drop_duplicates(subset=["num_gpus", "instance_type"],
keep="first")` deduplicates on. -/
def row_key (r : ComputeInstanceConfig) : Int × String :=
  (r.num_gpus, r.instance_type)

/-- Translation of `drop_duplicates(..., keep="first")`: keep each row
whose `(num_gpus, instance_type)` pair has not been seen earlier in the
list. -/
def dedupe_rows : List ComputeInstanceConfig → List (Int × String) →
    List ComputeInstanceConfig
  | [], _ => []
  | r :: rest, seen =>
    if row_key r ∈ seen then dedupe_rows rest seen
    else r :: dedupe_rows rest (row_key r :: seen)

/-- The stable lexicographic sort performed by `df.sort_values` in
`ComputeManager.get_instance_details`, modelled with the (stable)
insertion sort of Mathlib. -/
def sorted_rows (pv pr : String) (l : List ComputeInstanceConfig) :
    List ComputeInstanceConfig :=
  List.insertionSort (fun a b => row_le pv pr a b = true) l

/-- Translation of `ComputeManager.get_instance_details`
(`autobench/compute_manager.py`, lines 134-191): filter the catalog to
the requested GPU types, sort by `(num_gpus, instance_type, vendor
preference, region preference, price_per_hour)`, and drop duplicate
`(num_gpus, instance_type)` pairs keeping the first row. -/
def get_instance_details (options : List ComputeInstanceConfig)
    (gpu_types : List String) (pv pr : String) : List ComputeInstanceConfig :=
  dedupe_rows (sorted_rows pv pr
    (options.filter (fun r => gpu_types.contains r.instance_type))) []

/-! ## Result persistence (`autobench/benchmark.py`) -/

/-- Translation of the in-memory `BenchmarkResult` dataclass
(`autobench/benchmark.py`, lines 22-26), with `output_dir` already
resolved (the claims concern `save()` after the directory is fixed). -/
structure BenchmarkResultRec where
  benchmark_id : String
  scenario_group_results : List ScenarioGroupResult
  output_dir : String
deriving Repr, DecidableEq

/-- Content of one file written by `BenchmarkResult.save`: a rendered
script body, or the serialized result tree. -/
inductive FileContent where
  | script (body : String)
  | resultsJson (r : BenchmarkResultRec)
deriving Repr, DecidableEq

/-- Translation of `os.path.join(a, b)` for the joins `save` performs
(`b` is never absolute and `a` never ends in a slash there). -/
def path_join (a b : String) : String := a ++ "/" ++ b

/-- The path `save` writes the script of a scenario to — in the source,
`os.path.join` of the output directory, `scripts`, and the scenario id
followed by `.js` (`autobench/benchmark.py`, lines 48-50). -/
def script_path (output_dir scenario_id : String) : String :=
  path_join (path_join output_dir "scripts") (scenario_id ++ ".js")

/-- Python truthiness of the `k6_script` field as tested by
`if k6_script:` (`autobench/benchmark.py`, line 47): `None` and the
empty string are falsy. -/
def script_truthy : Option String → Bool
  | some s => !(s == "")
  | none => false

/-- Translation of the per-scenario body of the `save` loop
(`autobench/benchmark.py`, lines 45-53): when the `k6_script` field is
truthy, write its text to `scripts/<scenario_id>.js` under the output
directory and replace the field by that joined path. -/
def save_scenario (output_dir : String) (s : ScenarioResult) :
    ScenarioResult × List (String × FileContent) :=
  match s.k6_script with
  | some script =>
    if script = "" then (s, [])
    else ({ s with k6_script := some (script_path output_dir s.scenario_id) },
          [(script_path output_dir s.scenario_id, FileContent.script script)])
  | none => (s, [])

/-- The `save` loop over the `scenario_results` of one group
(`autobench/benchmark.py`, lines 45-53).  A `None` entry (as produced
by `ScenarioGroup._run` for a scenario whose subprocess exited
non-zero) raises `AttributeError` at `s.get("k6_script", None)`,
modelled as `Except.error`. -/
def save_scenarios (output_dir : String) :
    List (Option ScenarioResult) →
    Except String (List (Option ScenarioResult) × List (String × FileContent))
  | [] => Except.ok ([], [])
  | none :: _ => Except.error "AttributeError: NoneType object has no attribute get"
  | some s :: rest =>
    let sw := save_scenario output_dir s
    match save_scenarios output_dir rest with
    | Except.error e => Except.error e
    | Except.ok (l, ws) => Except.ok (some sw.1 :: l, sw.2 ++ ws)

/-- The `save` loop over the scenario groups
(`autobench/benchmark.py`, lines 44-53). -/
def save_groups (output_dir : String) :
    List ScenarioGroupResult →
    Except String (List ScenarioGroupResult × List (String × FileContent))
  | [] => Except.ok ([], [])
  | g :: rest =>
    match save_scenarios output_dir g.scenario_results with
    | Except.error e => Except.error e
    | Except.ok (rs, ws) =>
      match save_groups output_dir rest with
      | Except.error e => Except.error e
      | Except.ok (gs, ws2) =>
        Except.ok ({ g with scenario_results := rs } :: gs, ws ++ ws2)

/-- Translation of `BenchmarkResult.save` (`autobench/benchmark.py`,
lines 28-56): rewrite every truthy `k6_script` field to the joined
script path while writing the script files, then write the rewritten
tree to `os.path.join(output_dir, "results.json")`.  The return value
is the rewritten tree together with the list of `(path, content)`
writes in the order performed. -/
def benchmark_save (b : BenchmarkResultRec) :
    Except String (BenchmarkResultRec × List (String × FileContent)) :=
  match save_groups b.output_dir b.scenario_group_results with
  | Except.error e => Except.error e
  | Except.ok (gs, ws) =>
    let b2 : BenchmarkResultRec := { b with scenario_group_results := gs }
    Except.ok (b2, ws ++ [(path_join b.output_dir "results.json", FileContent.resultsJson b2)])

/-! ## Benchmark namespace (`autobench/benchmark.py`) -/

/-- Translation of `Benchmark._get_namespace`
(`autobench/benchmark.py`, lines 188-206), applied to the list of the
configured namespaces of the deployments of the scenario groups, in group order: if
the deployments span more than one distinct namespace the constructor
raises; otherwise it returns the first element of the list (for an
empty group list, `namespaces[0]` raises `IndexError`). -/
def get_namespace (namespaces : List String) : Except String String :=
  if 1 < namespaces.dedup.length then
    Except.error "Benchmarking deployments across multiple namespaces is not supported. Please ensure all deployments are in the same namespace."
  else
    match namespaces with
    | [] => Except.error "IndexError: list index out of range"
    | n :: _ => Except.ok n

/-- The scheduler state relevant to C10: `Benchmark._run_scheduler_async`
(`autobench/benchmark.py`, lines 208-221) constructs the scheduler with
`namespace=self.namespace`. -/
structure SchedulerRec where
  nspace : String
deriving Repr, DecidableEq

/-- Translation of the scheduler construction in
`Benchmark._run_scheduler_async`. -/
def mk_scheduler (benchmark_namespace : String) : SchedulerRec :=
  { nspace := benchmark_namespace }

/-- The URL `Scheduler.fetch_quotas` requests
(`autobench/scheduler.py`, lines 62-67), relative to the inference
endpoints base URL: it is built from the namespace of the scheduler. -/
def fetch_quotas_url (s : SchedulerRec) : String :=
  "/provider/quotas/" ++ s.nspace

/-- The URL `get_endpoint_logs` requests on behalf of the scheduler
(`autobench/scheduler.py`, lines 248-252 and 362-366), relative to the
inference endpoints base URL. -/
def endpoint_logs_url (s : SchedulerRec) (endpoint_name : String) : String :=
  "/endpoint/" ++ s.nspace ++ "/" ++ endpoint_name ++ "/logs"

/-- The namespace argument the scheduler passes to
`delete_inference_endpoint` (`autobench/scheduler.py`, lines
276-280). -/
def delete_namespace_arg (s : SchedulerRec) : String :=
  s.nspace

/-! ## Theorems -/

/-- C1: the scheduler admits a pending scenario group exactly when its
deployment exists and its endpoint reports running, or the quota entry
matching its `(vendor, instance_type)` satisfies
`maxAccelerators - usedAccelerators >= num_gpus` (equality admits); with
no matching quota entry the quota disjunct is false, so such a group is
never admitted on quota grounds. -/
theorem scheduler_admits_iff (q : Quota) (d : Deployment) :
    scheduler_admits q d = true ↔
      ((d.exists_ = true ∧ scheduler_is_running d = true) ∨
       ∃ e, find_quota q.vendors d.instance_config.vendor
              d.instance_config.instance_type = some e ∧
            d.instance_config.num_gpus ≤ e.maxAccelerators - e.usedAccelerators) := by
  unfold scheduler_admits scheduler_endpoint_exists can_deploy
  cases h : find_quota q.vendors d.instance_config.vendor
      d.instance_config.instance_type with
  | none => simp [h]
  | some e => simp [h]

/-- C9: a deployment on which no endpoint was ever created or adopted
(no endpoint handle attached) has `endpoint_status() = None` (no
exception), the running check of the scheduler is false for it, and in a
`deploy_and_benchmark` call whose endpoint creation did not succeed the
teardown branch is skipped: no delete action appears in the trace. -/
theorem endpoint_status_none_no_handle (d : Deployment) (h : d.endpoint = none) :
    d.endpoint_status = none ∧ scheduler_is_running d = false ∧
    (∀ env : SchedEnv, env.deployment = d →
      (∃ m, env.deploy_outcome = StepOutcome.endpointErr m ∨
            env.deploy_outcome = StepOutcome.otherErr m) →
      SchedAction.deleteEndpoint ∉ (deploy_and_benchmark env).2) := by
  refine ⟨by simp [Deployment.endpoint_status, h], by simp [scheduler_is_running, Deployment.endpoint_status, h], ?_⟩
  rintro env rfl ⟨m, hm | hm⟩ <;>
    simp [deploy_and_benchmark, scheduler_endpoint_exists, scheduler_is_running,
      Deployment.endpoint_status, h, hm] <;>
    rcases env.deployment.exists_ with _ | _ <;>
    rcases env.resume_outcome with _ | m2 | m2 <;>
    simp [h, hm] <;>
    rcases env.run_outcome with m3 | r3 <;>
    simp

/-- A concrete catalog row used by the concrete instantiations below. -/
def exInstance : ComputeInstanceConfig :=
  { id := "aws-us-east-1-nvidia-t4-x1", vendor := "aws", region := "us-east-1",
    instance_type := "nvidia-t4", instance_size := "x1", num_gpus := 1,
    price_per_hour := 50 }

/-- A concrete runtime config used by the concrete instantiations
below. -/
def exTgi : TGIConfig :=
  { model_id := "meta-llama/Meta-Llama-3-8B", max_batch_prefill_tokens := 4096,
    max_input_tokens := 1024, max_total_tokens := 2048 }

/-- A concrete deployment with no endpoint handle. -/
def exDeployment : Deployment :=
  { deployment_id := "dep-0001", exists_ := false, endpoint := none,
    instance_config := exInstance, tgi_config := exTgi, teardown_on_exit := true }

/-- Witness for C9: the concrete no-handle deployment, in a task whose
endpoint creation failed, reports status `None`, is not running, and
its trace holds no delete. -/
theorem endpoint_status_none_no_handle_witness :
    exDeployment.endpoint_status = none ∧
    scheduler_is_running exDeployment = false ∧
    SchedAction.deleteEndpoint ∉
      (deploy_and_benchmark
        { deployment := exDeployment, deploy_outcome := StepOutcome.otherErr "boom",
          resume_outcome := StepOutcome.ok, run_outcome := Except.error "not run",
          logs_result := Except.error "404", fetched_status := "running",
          delete_outcome := Except.ok () }).2 := by
  have h := endpoint_status_none_no_handle exDeployment rfl
  exact ⟨h.1, h.2.1, h.2.2 _ rfl ⟨"boom", Or.inr rfl⟩⟩

/-- Fact used by C2: `Scenario._run` with a running endpoint and a
non-zero subprocess exit code returns `None` (logging stderr), not a
`ScenarioResult`; in particular no failed `ScenarioResult` carrying the
stderr is produced. -/
theorem scenario_nonzero_exit_returns_none (parse : String → Option JsonValue)
    (e : ScenarioEnv) (h1 : e.status_seen = "running") (h2 : e.returncode ≠ 0) :
    scenario_run parse e = Except.ok none := by
  simp [scenario_run, h1, h2]

/-- A concrete scenario run whose k6 subprocess exits with code 1. -/
def exNonzeroEnv : ScenarioEnv :=
  { scenario_id := "s-1", deployment_id := "dep-0001",
    executor_type := "k6_constant_arrival_rate_executor",
    executor_variables := [("rate", "5"), ("duration", "15s")],
    status_seen := "running", returncode := 1, stdout := "",
    stderr := "level=error msg=request failed", rendered_script := "import http;" }

/-- Witness for the amended statement of C2 at the concrete non-zero-exit
run. -/
theorem scenario_nonzero_exit_returns_none_witness :
    scenario_run (fun _ => none) exNonzeroEnv = Except.ok none :=
  scenario_nonzero_exit_returns_none (fun _ => none) exNonzeroEnv rfl (by decide)

/-- Counterexample to C2 as stated: at the concrete non-zero-exit run
the code yields `Except.ok none` — no `ScenarioResult` at all — and in
particular not the claimed failed result whose `error` is the captured
stderr and which carries the script text and executor variables. -/
theorem scenario_nonzero_exit_counterexample :
    scenario_run (fun _ => none) exNonzeroEnv = Except.ok none ∧
    scenario_run (fun _ => none) exNonzeroEnv ≠
      Except.ok (some
        { scenario_id := "s-1", deployment_id := "dep-0001",
          executor_type := "k6_constant_arrival_rate_executor",
          executor_variables := [("rate", "5"), ("duration", "15s")],
          k6_script := some "import http;", metrics := none,
          status := "failed", error := some "level=error msg=request failed" }) := by
  constructor
  · rfl
  · intro h
    simp [scenario_run, exNonzeroEnv] at h

/-- C6: a scenario whose subprocess exits with code zero but whose
trimmed stdout does not parse as JSON (the parser returns `none`, as it
does for zero bytes of stdout) yields a `ScenarioResult` with status
`failed`, error `"Failed to parse output as JSON"`, null metrics, the
rendered script text, and the original executor variables. -/
theorem scenario_parse_failure_result (parse : String → Option JsonValue)
    (e : ScenarioEnv) (h1 : e.status_seen = "running") (h2 : e.returncode = 0)
    (h3 : parse e.stdout.trim = none) :
    scenario_run parse e = Except.ok (some
      { scenario_id := e.scenario_id
        deployment_id := e.deployment_id
        executor_type := e.executor_type
        executor_variables := e.executor_variables
        k6_script := some e.rendered_script
        metrics := none
        status := "failed"
        error := some "Failed to parse output as JSON" }) := by
  simp [scenario_run, h1, h2, mkScenarioResult, h3]

/-- A concrete scenario run that exits zero with zero bytes on
stdout. -/
def exEmptyStdoutEnv : ScenarioEnv :=
  { scenario_id := "s-2", deployment_id := "dep-0001",
    executor_type := "k6_constant_arrival_rate_executor",
    executor_variables := [("rate", "10")],
    status_seen := "running", returncode := 0, stdout := "",
    stderr := "", rendered_script := "import http;" }

/-- Witness for C6 at the concrete zero-exit, empty-stdout run. -/
theorem scenario_parse_failure_result_witness :
    scenario_run (fun _ => none) exEmptyStdoutEnv = Except.ok (some
      { scenario_id := "s-2", deployment_id := "dep-0001",
        executor_type := "k6_constant_arrival_rate_executor",
        executor_variables := [("rate", "10")],
        k6_script := some "import http;"
        metrics := none
        status := "failed"
        error := some "Failed to parse output as JSON" }) :=
  scenario_parse_failure_result (fun _ => none) exEmptyStdoutEnv rfl rfl rfl

/-- When the endpoint reports running, `Scenario._run` returns normally:
`None` for a non-zero exit code, a result otherwise. -/
theorem scenario_run_of_running (parse : String → Option JsonValue)
    (e : ScenarioEnv) (h : e.status_seen = "running") :
    scenario_run parse e = Except.ok (scenario_outcome parse e) := by
  by_cases hc : e.returncode = 0 <;> simp [scenario_run, scenario_outcome, h, hc]

/-- C3 (amended): as long as every scenario of the group finds its
endpoint running, the group never aborts: it runs every scenario in
order and records one entry per scenario — `None` for a scenario whose
subprocess exited non-zero, its `ScenarioResult` otherwise. -/
theorem group_continues_on_nonzero_exit (parse : String → Option JsonValue)
    (dep : String) (es : List ScenarioEnv)
    (h : ∀ e ∈ es, e.status_seen = "running") :
    scenario_group_run parse dep es =
      Except.ok { deployment_id := dep,
                  scenario_results := es.map (scenario_outcome parse) } := by
  have go : ∀ (l : List ScenarioEnv) (acc : List (Option ScenarioResult)),
      (∀ e ∈ l, e.status_seen = "running") →
      scenario_group_go parse l acc =
        Except.ok (acc ++ l.map (scenario_outcome parse)) := by
    intro l
    induction l with
    | nil => intro acc _; simp [scenario_group_go]
    | cons e rest ih =>
      intro acc hall
      have he : e.status_seen = "running" := hall e (List.mem_cons_self e rest)
      have hrest : ∀ x ∈ rest, x.status_seen = "running" :=
        fun x hx => hall x (List.mem_cons_of_mem e hx)
      simp [scenario_group_go, scenario_run_of_running parse e he, ih _ hrest]
  unfold scenario_group_run
  rw [go es [] h]
  simp

/-- The first scenario of the concrete aborting group: its endpoint
reports `paused`. -/
def exPausedEnv : ScenarioEnv :=
  { scenario_id := "s-3", deployment_id := "dep-0002",
    executor_type := "k6_constant_arrival_rate_executor",
    executor_variables := [("rate", "1")],
    status_seen := "paused", returncode := 0, stdout := "",
    stderr := "", rendered_script := "import http;" }

/-- The second scenario of the concrete aborting group: it would
succeed, but is never reached. -/
def exAfterPausedEnv : ScenarioEnv :=
  { scenario_id := "s-4", deployment_id := "dep-0002",
    executor_type := "k6_constant_arrival_rate_executor",
    executor_variables := [("rate", "2")],
    status_seen := "running", returncode := 0, stdout := "",
    stderr := "", rendered_script := "import http;" }

/-- Counterexample to C3 as stated: a scenario attempted against a
non-running endpoint raises, the exception propagates out of
`ScenarioGroup._run` (whose loop has no exception handler), and the
group aborts producing no group result — the remaining scenario is not
run and no per-scenario entry is recorded. -/
theorem group_abort_counterexample :
    scenario_group_run (fun _ => none) "dep-0002" [exPausedEnv, exAfterPausedEnv] =
      Except.error "Deployment dep-0002 is not running, will not run benchmark." ∧
    (scenario_group_run (fun _ => none) "dep-0002"
      [exPausedEnv, exAfterPausedEnv]).toOption = none := by
  constructor <;> rfl

/-- Witness for the amended statement of C3: a concrete two-scenario group
whose first subprocess exits non-zero still runs the second scenario
and records `None` then a result. -/
theorem group_continues_on_nonzero_exit_witness :
    scenario_group_run (fun _ => none) "dep-0001" [exNonzeroEnv, exEmptyStdoutEnv] =
      Except.ok { deployment_id := "dep-0001",
                  scenario_results :=
                    [none,
                     some { scenario_id := "s-2", deployment_id := "dep-0001",
                            executor_type := "k6_constant_arrival_rate_executor",
                            executor_variables := [("rate", "10")],
                            k6_script := some "import http;",
                            metrics := none,
                            status := "failed",
                            error := some "Failed to parse output as JSON" }] } := by
  have h := group_continues_on_nonzero_exit (fun _ => none) "dep-0001"
    [exNonzeroEnv, exEmptyStdoutEnv]
    (by decide)
  rw [h]
  rfl

/-- C5: when endpoint creation fails for a group (raising
`InferenceEndpointError`), the task sleeps 60 s and fetches the
endpoint logs, sets `oom` exactly to whether the (plain-text) logs
contain the substring `"OutOfMemoryError"`, and the final result has
`deployment_status.status = "failed"` with the creation error message,
an empty `scenario_results` list, and a trace without any endpoint
deletion. -/
theorem endpoint_error_branch (env : SchedEnv) (msg logs : String)
    (h1 : env.deployment.exists_ = false)
    (h2 : env.deployment.endpoint = none)
    (h3 : env.deploy_outcome = StepOutcome.endpointErr msg)
    (h4 : env.logs_result = Except.ok (Logs.text logs)) :
    (deploy_and_benchmark env).1.deployment_status =
      some { status := "failed", error := some msg,
             oom := str_contains logs "OutOfMemoryError" } ∧
    (deploy_and_benchmark env).1.scenario_results = [] ∧
    (deploy_and_benchmark env).2 =
      [SchedAction.createEndpoint, SchedAction.sleepSec 60,
       SchedAction.fetchLogs, SchedAction.updateQuota] := by
  refine ⟨?_, ?_, ?_⟩ <;>
    simp [deploy_and_benchmark, scheduler_endpoint_exists, scheduler_is_running,
      Deployment.endpoint_status, h1, h2, h3, h4, logs_contain]

/-- A concrete scheduler-task environment whose endpoint creation
fails and whose log fetch returns text containing
`OutOfMemoryError`. -/
def exOomEnv : SchedEnv :=
  { deployment := exDeployment,
    deploy_outcome := StepOutcome.endpointErr "endpoint failed to deploy",
    resume_outcome := StepOutcome.ok,
    run_outcome := Except.error "never ran",
    logs_result := Except.ok (Logs.text "torch.cuda.OutOfMemoryError: CUDA out of memory"),
    fetched_status := "running",
    delete_outcome := Except.ok () }

/-- Witness for C5 at the concrete failing creation whose logs report
an out-of-memory error. -/
theorem endpoint_error_branch_witness :
    (deploy_and_benchmark exOomEnv).1.deployment_status =
      some { status := "failed", error := some "endpoint failed to deploy", oom := true } ∧
    (deploy_and_benchmark exOomEnv).1.scenario_results = [] ∧
    (deploy_and_benchmark exOomEnv).2 =
      [SchedAction.createEndpoint, SchedAction.sleepSec 60,
       SchedAction.fetchLogs, SchedAction.updateQuota] := by
  have h := endpoint_error_branch exOomEnv "endpoint failed to deploy"
    "torch.cuda.OutOfMemoryError: CUDA out of memory" rfl rfl rfl rfl
  refine ⟨?_, h.2.1, h.2.2⟩
  rw [h.1]
  rfl

/-- C8 (amended): the derived environment binds the four integer
variables to the string-serialized field values and `MODEL_ID` to
`"/repository"`, and it has a `QUANTIZE` key — bound to the quantize
value — exactly when `quantize` is set to a non-empty string (Python
truthiness); in particular, when `quantize` is absent there is no
`QUANTIZE` key. -/
theorem env_vars_characterisation (c : TGIConfig) :
    c.env_vars.lookup "MAX_INPUT_TOKENS" = some (toString c.max_input_tokens) ∧
    c.env_vars.lookup "MAX_TOTAL_TOKENS" = some (toString c.max_total_tokens) ∧
    c.env_vars.lookup "MAX_BATCH_PREFILL_TOKENS" = some (toString c.max_batch_prefill_tokens) ∧
    c.env_vars.lookup "NUM_SHARD" = some (toString c.num_shard) ∧
    c.env_vars.lookup "MODEL_ID" = some "/repository" ∧
    c.env_vars.lookup "QUANTIZE" =
      (match c.quantize with
       | some q => if q = "" then none else some q
       | none => none) := by
  cases hq : c.quantize with
  | none => refine ⟨?_, ?_, ?_, ?_, ?_, ?_⟩ <;> simp [TGIConfig.env_vars, List.lookup, hq]
  | some q =>
    by_cases he : q = "" <;>
      refine ⟨?_, ?_, ?_, ?_, ?_, ?_⟩ <;>
      simp [TGIConfig.env_vars, List.lookup, hq, he]

/-- Counterexample to C8 as stated: with `quantize` set to the empty
string the Python truthiness guard `if self.quantize:` skips the key,
so `quantize` is set yet the environment has no `QUANTIZE` key. -/
theorem quantize_empty_counterexample :
    (TGIConfig.env_vars
      { model_id := "m", max_batch_prefill_tokens := 4096,
        max_input_tokens := 1024, max_total_tokens := 2048,
        quantize := some "" }).lookup "QUANTIZE" = none ∧
    (some "" : Option String).isSome = true := by
  constructor <;> rfl

/-- The rewritten scenario record produced by the `save` loop. -/
def saved_scenario (output_dir : String) (s : ScenarioResult) : ScenarioResult :=
  (save_scenario output_dir s).1

/-- The script files the `save` loop writes for one scenario. -/
def scenario_writes (output_dir : String) (s : ScenarioResult) :
    List (String × FileContent) :=
  (save_scenario output_dir s).2

/-- The script files the `save` loop writes for one optional
per-scenario entry. -/
def opt_writes (output_dir : String) : Option ScenarioResult → List (String × FileContent)
  | some s => scenario_writes output_dir s
  | none => []

/-- One group of the result tree after the `save` loop rewrote its
script fields of its scenarios. -/
def group_saved (output_dir : String) (g : ScenarioGroupResult) : ScenarioGroupResult :=
  { g with scenario_results := g.scenario_results.map (Option.map (saved_scenario output_dir)) }

/-- The script files the `save` loop writes for one group. -/
def group_writes (output_dir : String) (g : ScenarioGroupResult) :
    List (String × FileContent) :=
  (g.scenario_results.map (opt_writes output_dir)).flatten

/-- Closed form of the scenario loop of `save` when no entry is
`None`. -/
theorem save_scenarios_eq (output_dir : String) (l : List (Option ScenarioResult))
    (h : ∀ x ∈ l, x ≠ none) :
    save_scenarios output_dir l =
      Except.ok (l.map (Option.map (saved_scenario output_dir)),
                 (l.map (opt_writes output_dir)).flatten) := by
  induction l with
  | nil => simp [save_scenarios]
  | cons x rest ih =>
    cases x with
    | none => exact absurd rfl (h none (List.mem_cons_self none rest))
    | some s =>
      have hrest : ∀ y ∈ rest, y ≠ none :=
        fun y hy => h y (List.mem_cons_of_mem _ hy)
      simp [save_scenarios, ih hrest, saved_scenario, opt_writes, scenario_writes]

/-- Closed form of the group loop of `save` when no per-scenario entry
is `None`. -/
theorem save_groups_eq (output_dir : String) (gs : List ScenarioGroupResult)
    (h : ∀ g ∈ gs, ∀ x ∈ g.scenario_results, x ≠ none) :
    save_groups output_dir gs =
      Except.ok (gs.map (group_saved output_dir),
                 (gs.map (group_writes output_dir)).flatten) := by
  induction gs with
  | nil => simp [save_groups]
  | cons g rest ih =>
    have hg : ∀ x ∈ g.scenario_results, x ≠ none :=
      h g (List.mem_cons_self g rest)
    have hrest : ∀ g2 ∈ rest, ∀ x ∈ g2.scenario_results, x ≠ none :=
      fun g2 hg2 => h g2 (List.mem_cons_of_mem _ hg2)
    simp [save_groups, save_scenarios_eq output_dir _ hg, ih hrest,
      group_saved, group_writes]

/-- C7 (amended): `save` writes each truthy script as
`scripts/<scenario_id>.js` under the output directory and replaces the
per-scenario `k6_script` field by the `os.path.join` of the output directory, `scripts`, and
"<scenario_id>.js")` — the output-directory-joined path, not the path
relative to the output directory — then writes the rewritten tree to
`results.json` under the output directory. -/
theorem save_joined_paths (b : BenchmarkResultRec)
    (h : ∀ g ∈ b.scenario_group_results, ∀ x ∈ g.scenario_results, x ≠ none) :
    benchmark_save b =
      Except.ok
        ({ b with scenario_group_results :=
             b.scenario_group_results.map (group_saved b.output_dir) },
         (b.scenario_group_results.map (group_writes b.output_dir)).flatten ++
           [(path_join b.output_dir "results.json",
             FileContent.resultsJson
               { b with scenario_group_results :=
                   b.scenario_group_results.map (group_saved b.output_dir) })]) ∧
    (∀ (s : ScenarioResult) (body : String), s.k6_script = some body → body ≠ "" →
      (saved_scenario b.output_dir s).k6_script =
        some (path_join (path_join b.output_dir "scripts") (s.scenario_id ++ ".js")) ∧
      scenario_writes b.output_dir s =
        [(path_join (path_join b.output_dir "scripts") (s.scenario_id ++ ".js"),
          FileContent.script body)]) := by
  constructor
  · simp [benchmark_save, save_groups_eq b.output_dir _ h]
  · intro s body hs hbody
    constructor <;> simp [saved_scenario, scenario_writes, save_scenario, hs, hbody, script_path]

/-- A concrete scenario result carrying a rendered script. -/
def exSaveScenario : ScenarioResult :=
  { scenario_id := "abc", deployment_id := "dep-0001",
    executor_type := "k6_constant_arrival_rate_executor",
    executor_variables := [("rate", "5")],
    k6_script := some "script body", metrics := some { raw := "summary" },
    status := "success", error := none }

/-- A concrete benchmark result tree about to be saved under
`/bench/out`. -/
def exSaveBench : BenchmarkResultRec :=
  { benchmark_id := "bench-1",
    scenario_group_results :=
      [{ deployment_id := "dep-0001", scenario_results := [some exSaveScenario] }],
    output_dir := "/bench/out" }

/-- The concrete scenario record after saving: its `k6_script` holds the
full joined path. -/
def exSavedScenario : ScenarioResult :=
  { exSaveScenario with k6_script := some "/bench/out/scripts/abc.js" }

/-- The concrete benchmark tree after saving. -/
def exSavedBench : BenchmarkResultRec :=
  { exSaveBench with scenario_group_results :=
      [{ deployment_id := "dep-0001", scenario_results := [some exSavedScenario] }] }

/-- Counterexample to C7 as stated: saving the concrete tree stores
`"/bench/out/scripts/abc.js"` — the output-directory-joined path — in
the serialized `k6_script` field, not the relative path
`"scripts/abc.js"` under the output directory. -/
theorem save_path_counterexample :
    benchmark_save exSaveBench =
      Except.ok (exSavedBench,
        [("/bench/out/scripts/abc.js", FileContent.script "script body"),
         ("/bench/out/results.json", FileContent.resultsJson exSavedBench)]) ∧
    exSavedScenario.k6_script ≠ some "scripts/abc.js" := by
  constructor
  · rfl
  · decide

/-- Witness for the amended statement of C7 at the concrete tree: the saved
field holds the joined path. -/
theorem save_joined_paths_witness :
    (saved_scenario "/bench/out" exSaveScenario).k6_script =
      some "/bench/out/scripts/abc.js" := by
  have h := (save_joined_paths exSaveBench (by decide)).2 exSaveScenario
    "script body" rfl (by decide)
  simpa using h.1

/-- C10: with deployments spanning more than one distinct namespace the
benchmark constructor raises; when it succeeds with namespace `n`,
the namespace of every deployment equals `n` and the scheduler it builds
performs every namespaced operation — quota fetch, log fetch, endpoint
deletion — against exactly `n`. -/
theorem benchmark_namespace_characterisation (namespaces : List String) :
    (1 < namespaces.dedup.length →
      get_namespace namespaces =
        Except.error "Benchmarking deployments across multiple namespaces is not supported. Please ensure all deployments are in the same namespace.") ∧
    (∀ n, get_namespace namespaces = Except.ok n →
      (∀ m ∈ namespaces, m = n) ∧
      (mk_scheduler n).nspace = n ∧
      fetch_quotas_url (mk_scheduler n) = "/provider/quotas/" ++ n ∧
      (∀ en, endpoint_logs_url (mk_scheduler n) en =
        "/endpoint/" ++ n ++ "/" ++ en ++ "/logs") ∧
      delete_namespace_arg (mk_scheduler n) = n) := by
  constructor
  · intro hlen
    simp [get_namespace, hlen]
  · intro n hok
    have hnotlen : ¬ 1 < namespaces.dedup.length := by
      intro hlen
      simp [get_namespace, hlen] at hok
    have hmem : ∀ m ∈ namespaces, m = n := by
      intro m hm
      rcases namespaces with _ | ⟨a, rest⟩
      · cases hm
      · have ha : a = n := by
          simp [get_namespace, hnotlen] at hok
          exact hok
        have hlen1 : (a :: rest).dedup.length ≤ 1 := Nat.le_of_not_lt hnotlen
        have hmd : m ∈ (a :: rest).dedup := List.mem_dedup.mpr hm
        have had : a ∈ (a :: rest).dedup := List.mem_dedup.mpr (List.mem_cons_self a rest)
        rcases List.length_eq_one.mp (Nat.le_antisymm hlen1 (Nat.succ_le_of_lt
          (List.length_pos.mpr (List.ne_nil_of_mem hmd)))) with ⟨x, hx⟩
        rw [hx] at hmd had
        simp at hmd had
        rw [hmd, ← had, ha]
    exact ⟨hmem, rfl, rfl, fun en => rfl, rfl⟩

/-- Witness for C10 at a concrete two-deployment, one-namespace
benchmark. -/
theorem benchmark_namespace_witness :
    (∀ m ∈ ["acme-org", "acme-org"], m = "acme-org") ∧
    fetch_quotas_url (mk_scheduler "acme-org") = "/provider/quotas/acme-org" := by
  have h := (benchmark_namespace_characterisation ["acme-org", "acme-org"]).2
    "acme-org" (by rfl)
  exact ⟨h.1, h.2.2.1⟩

/-- The structural character comparison agrees with the ambient
lexicographic order on character lists. -/
theorem chars_lt_iff : ∀ as bs : List Char, chars_lt as bs = true ↔ as < bs := by
  intro as
  induction as with
  | nil =>
    intro bs
    cases bs with
    | nil => exact iff_of_false (by simp [chars_lt]) (fun h => by cases h)
    | cons b bs => exact iff_of_true rfl List.Lex.nil
  | cons a as ih =>
    intro bs
    cases bs with
    | nil => exact iff_of_false (by simp [chars_lt]) (fun h => by cases h)
    | cons b bs =>
      simp only [chars_lt]
      rcases lt_trichotomy a b with h | h | h
      · exact iff_of_true (by simp [h]) (List.Lex.rel h)
      · subst h
        rw [if_neg (lt_irrefl a), if_neg (lt_irrefl a)]
        rw [ih bs]
        constructor
        · exact fun h2 => List.Lex.cons h2
        · intro h2
          cases h2 with
          | cons h3 => exact h3
          | rel h3 => exact absurd h3 (lt_irrefl a)
      · refine iff_of_false (by simp [not_lt_of_gt h, h]) (fun h2 => ?_)
        cases h2 with
        | cons h3 => exact absurd h (lt_irrefl a)
        | rel h3 => exact absurd h3 (not_lt_of_gt h)

/-- The structural string comparison agrees with the ambient string
order. -/
theorem str_lt_iff (a b : String) : str_lt a b = true ↔ a < b := by
  rw [str_lt, chars_lt_iff]
  exact String.lt_iff_toList_lt.symm

/-- The structural string comparison is irreflexive. -/
theorem str_lt_irrefl (a : String) : str_lt a a = false := by
  rw [← Bool.not_eq_true]
  simp [str_lt_iff]

/-- The Boolean comparison `row_le` decides exactly the lexicographic
order of the sort keys. -/
theorem row_le_iff (pv pr : String) (a b : ComputeInstanceConfig) :
    row_le pv pr a b = true ↔ sort_key pv pr a ≤ sort_key pv pr b := by
  unfold row_le sort_key
  simp only [Prod.Lex.le_iff, str_lt_iff]
  rcases lt_trichotomy a.num_gpus b.num_gpus with h | h | h
  · simp [h]
  · simp only [h, lt_irrefl, if_neg (lt_irrefl b.num_gpus), false_or, true_and,
      if_false]
    rcases lt_trichotomy a.instance_type b.instance_type with h2 | h2 | h2
    · simp [h2]
    · simp only [h2, lt_irrefl, if_neg (lt_irrefl b.instance_type), false_or,
        true_and, if_false]
      rcases lt_trichotomy (vendor_key pv a) (vendor_key pv b) with h3 | h3 | h3
      · simp [h3]
      · simp only [h3, lt_irrefl, if_neg (lt_irrefl (vendor_key pv b)), false_or,
          true_and, if_false]
        rcases lt_trichotomy (region_key pr a) (region_key pr b) with h4 | h4 | h4
        · simp [h4]
        · simp [h4, lt_irrefl]
        · simp [h4, not_lt_of_gt h4, ne_of_gt h4]
      · simp [h3, not_lt_of_gt h3, ne_of_gt h3]
    · simp [h2, not_lt_of_gt h2, ne_of_gt h2]
  · simp [h, not_lt_of_gt h, ne_of_gt h]

/-- The row comparison is total. -/
theorem row_le_total (pv pr : String) (a b : ComputeInstanceConfig) :
    row_le pv pr a b = true ∨ row_le pv pr b a = true := by
  rcases le_total (sort_key pv pr a) (sort_key pv pr b) with h | h
  · exact Or.inl ((row_le_iff pv pr a b).mpr h)
  · exact Or.inr ((row_le_iff pv pr b a).mpr h)

/-- The row comparison is transitive. -/
theorem row_le_trans (pv pr : String) (a b c : ComputeInstanceConfig)
    (h1 : row_le pv pr a b = true) (h2 : row_le pv pr b c = true) :
    row_le pv pr a c = true :=
  (row_le_iff pv pr a c).mpr
    (le_trans ((row_le_iff pv pr a b).mp h1) ((row_le_iff pv pr b c).mp h2))

/-- Every row kept by the dedup pass comes from the input list. -/
theorem mem_of_mem_dedupe {l : List ComputeInstanceConfig}
    {seen : List (Int × String)} {x : ComputeInstanceConfig}
    (h : x ∈ dedupe_rows l seen) : x ∈ l := by
  induction l generalizing seen with
  | nil => simp [dedupe_rows] at h
  | cons a rest ih =>
    by_cases hs : row_key a ∈ seen
    · simp only [dedupe_rows, if_pos hs] at h
      exact List.mem_cons_of_mem _ (ih h)
    · simp only [dedupe_rows, if_neg hs, List.mem_cons] at h
      rcases h with rfl | h
      · exact List.mem_cons_self _ _
      · exact List.mem_cons_of_mem _ (ih h)

/-- A row kept by the dedup pass has a key outside the seen set. -/
theorem key_not_seen_of_mem_dedupe {l : List ComputeInstanceConfig}
    {seen : List (Int × String)} {x : ComputeInstanceConfig}
    (h : x ∈ dedupe_rows l seen) : row_key x ∉ seen := by
  induction l generalizing seen with
  | nil => simp [dedupe_rows] at h
  | cons a rest ih =>
    by_cases hs : row_key a ∈ seen
    · simp only [dedupe_rows, if_pos hs] at h
      exact ih h
    · simp only [dedupe_rows, if_neg hs, List.mem_cons] at h
      rcases h with rfl | h
      · exact hs
      · intro hmem
        exact ih h (List.mem_cons_of_mem _ hmem)

/-- In a pairwise-ordered list, a kept row precedes (in the order) every
input row carrying the same key: the dedup pass keeps the first
occurrence of each key. -/
theorem dedupe_keeps_first {R : ComputeInstanceConfig → ComputeInstanceConfig → Prop}
    {l : List ComputeInstanceConfig} {seen : List (Int × String)}
    {x r : ComputeInstanceConfig}
    (hp : l.Pairwise R) (hx : x ∈ dedupe_rows l seen) (hr : r ∈ l)
    (hk : row_key r = row_key x) : r = x ∨ R x r := by
  induction l generalizing seen with
  | nil => simp [dedupe_rows] at hx
  | cons a rest ih =>
    rw [List.pairwise_cons] at hp
    by_cases hs : row_key a ∈ seen
    · simp only [dedupe_rows, if_pos hs] at hx
      rcases List.mem_cons.mp hr with rfl | hr2
      · exact absurd (hk ▸ hs) (key_not_seen_of_mem_dedupe hx)
      · exact ih hp.2 hx hr2
    · simp only [dedupe_rows, if_neg hs, List.mem_cons] at hx
      rcases hx with rfl | hx2
      · rcases List.mem_cons.mp hr with rfl | hr2
        · exact Or.inl rfl
        · exact Or.inr (hp.1 r hr2)
      · rcases List.mem_cons.mp hr with rfl | hr2
        · exact absurd (hk ▸ List.mem_cons_self (row_key r) seen)
            (key_not_seen_of_mem_dedupe hx2)
        · exact ih hp.2 hx2 hr2

/-- The dedup pass leaves no two rows with the same
`(num_gpus, instance_type)` pair. -/
theorem dedupe_keys_nodup (l : List ComputeInstanceConfig)
    (seen : List (Int × String)) :
    ((dedupe_rows l seen).map row_key).Nodup := by
  induction l generalizing seen with
  | nil => simp [dedupe_rows]
  | cons a rest ih =>
    by_cases hs : row_key a ∈ seen
    · simp only [dedupe_rows, if_pos hs]
      exact ih seen
    · simp only [dedupe_rows, if_neg hs, List.map_cons, List.nodup_cons]
      refine ⟨?_, ih _⟩
      intro hmem
      rcases List.mem_map.mp hmem with ⟨y, hy, hyk⟩
      exact key_not_seen_of_mem_dedupe hy (hyk ▸ List.mem_cons_self _ _)

/-- A row comparison with equal `num_gpus`, `instance_type`, vendor key
and region key reduces to the price comparison. -/
theorem price_le_of_row_le (pv pr : String) (a b : ComputeInstanceConfig)
    (h : row_le pv pr a b = true)
    (hn : a.num_gpus = b.num_gpus) (hi : a.instance_type = b.instance_type)
    (hv : vendor_key pv a = vendor_key pv b)
    (hr : region_key pr a = region_key pr b) :
    a.price_per_hour ≤ b.price_per_hour := by
  unfold row_le at h
  simp only [hn, hi, hv, hr, lt_irrefl, str_lt_irrefl, Bool.false_eq_true,
    if_false, decide_eq_true_eq] at h
  exact h

/-- C4 (amended): each `(num_gpus, instance_type)` pair appears on
exactly one row of the planner output, and the `price_per_hour` of the
kept row is minimal among the sorted candidate rows that share
its pair together with its vendor-preference and region-preference
keys (rows the dedup dropped in favour of a preferred vendor or region
may be cheaper). -/
theorem planner_dedup_characterisation (options : List ComputeInstanceConfig)
    (gpu_types : List String) (pv pr : String) :
    ((get_instance_details options gpu_types pv pr).map row_key).Nodup ∧
    (∀ kept ∈ get_instance_details options gpu_types pv pr,
     ∀ r ∈ sorted_rows pv pr
         (options.filter (fun x => gpu_types.contains x.instance_type)),
       row_key r = row_key kept →
       vendor_key pv r = vendor_key pv kept →
       region_key pr r = region_key pr kept →
       kept.price_per_hour ≤ r.price_per_hour) := by
  constructor
  · exact dedupe_keys_nodup _ _
  · intro kept hkept r hr hk hv hreg
    have hp : (sorted_rows pv pr
        (options.filter (fun x => gpu_types.contains x.instance_type))).Pairwise
        (fun a b => row_le pv pr a b = true) := by
      haveI : IsTotal ComputeInstanceConfig (fun a b => row_le pv pr a b = true) :=
        ⟨row_le_total pv pr⟩
      haveI : IsTrans ComputeInstanceConfig (fun a b => row_le pv pr a b = true) :=
        ⟨row_le_trans pv pr⟩
      exact List.sorted_insertionSort _ _
    rcases dedupe_keeps_first hp hkept hr hk with rfl | hle
    · exact le_refl _
    · have hn : kept.num_gpus = r.num_gpus :=
        (congrArg Prod.fst hk).symm
      have hi : kept.instance_type = r.instance_type :=
        (congrArg Prod.snd hk).symm
      exact price_le_of_row_le pv pr kept r hle hn hi hv.symm hreg.symm

/-- A concrete preferred-vendor catalog row: 1 GPU, type `nvidia-t4`,
vendor `aws`, price 10 units. -/
def exRowAws : ComputeInstanceConfig :=
  { id := "aws-1", vendor := "aws", region := "us-east-1",
    instance_type := "nvidia-t4", instance_size := "x1", num_gpus := 1,
    price_per_hour := 10 }

/-- A concrete non-preferred-vendor catalog row with the same
`(num_gpus, instance_type)` pair but a lower price, 5 units. -/
def exRowGcp : ComputeInstanceConfig :=
  { id := "gcp-1", vendor := "gcp", region := "us-east4",
    instance_type := "nvidia-t4", instance_size := "x1", num_gpus := 1,
    price_per_hour := 5 }

/-- A second preferred-vendor row with the same pair and price
7 units. -/
def exRowAws2 : ComputeInstanceConfig :=
  { id := "aws-2", vendor := "aws", region := "us-east-1",
    instance_type := "nvidia-t4", instance_size := "x1", num_gpus := 1,
    price_per_hour := 7 }

/-- Counterexample to C4 as stated: with preferred vendor `aws`, the
planner keeps the `aws` row priced 10 and drops the `gcp` row with the
same `(num_gpus, instance_type)` pair priced 5, so the price of the kept row
is not `≤` the price of every dropped row with its pair. -/
theorem planner_price_counterexample :
    get_instance_details [exRowGcp, exRowAws] ["nvidia-t4"] "aws" "us" = [exRowAws] ∧
    exRowGcp ∈ [exRowGcp, exRowAws].filter
      (fun x => List.contains ["nvidia-t4"] x.instance_type) ∧
    exRowGcp ∉ get_instance_details [exRowGcp, exRowAws] ["nvidia-t4"] "aws" "us" ∧
    row_key exRowGcp = row_key exRowAws ∧
    ¬ exRowAws.price_per_hour ≤ exRowGcp.price_per_hour := by
  refine ⟨?_, ?_, ?_, ?_, ?_⟩ <;> decide

/-- Witness for the amended statement of C4 at a concrete catalog with two
preferred-vendor rows sharing the pair and the preference keys: the
kept row is the cheaper of the two. -/
theorem planner_dedup_witness :
    exRowAws2.price_per_hour ≤ exRowAws.price_per_hour := by
  have h := (planner_dedup_characterisation [exRowAws, exRowAws2]
    ["nvidia-t4"] "aws" "us").2
  exact h exRowAws2 (by decide) exRowAws (by decide) (by decide) (by decide) (by decide)

/-- A concrete quota document granting `aws`/`nvidia-t4` capacity
4 with 1 used. -/
def exQuota : Quota :=
  { vendors := [{ name := "aws",
                  quotas := [{ instanceType := "nvidia-t4",
                               maxAccelerators := 4,
                               usedAccelerators := 1 }] }] }

/-- Witness for C1: the concrete pending deployment (1 GPU required,
3 available) is admitted on quota grounds. -/
theorem scheduler_admits_iff_witness :
    scheduler_admits exQuota exDeployment = true := by
  refine (scheduler_admits_iff exQuota exDeployment).mpr
    (Or.inr ⟨{ instanceType := "nvidia-t4", maxAccelerators := 4,
               usedAccelerators := 1 }, ?_, ?_⟩) <;> decide

/-- Witness for the amended statement of C8 at the concrete runtime
config without `quantize`: the serialized values are present and no
`QUANTIZE` key exists. -/
theorem env_vars_characterisation_witness :
    (TGIConfig.env_vars exTgi).lookup "MODEL_ID" = some "/repository" ∧
    (TGIConfig.env_vars exTgi).lookup "NUM_SHARD" = some "1" ∧
    (TGIConfig.env_vars exTgi).lookup "QUANTIZE" = none := by
  have h := env_vars_characterisation exTgi
  exact ⟨h.2.2.2.2.1, h.2.2.2.1.trans (by decide), h.2.2.2.2.2.trans (by decide)⟩
